import Mathlib

/-!
Verification of the first-person campus viewer core
(`src/components/ThreeDViewer.jsx`).

The component's simulation core is shallowly embedded here:

* scalar quantities (positions, velocities, distances, elapsed time) are
  rationals (`ℚ`); the source uses IEEE doubles but every claim checked
  here is about exact algebraic structure, not rounding;
* angles that the source stores in radians are represented as rational
  multiples of π (the source only ever adds or subtracts `Math.PI / 2`
  and compares against `±Math.PI/2`, so the coefficient carries all the
  information);
* the external three.js capabilities (ray casting against meshes, Euler
  rotation of vectors, DOM event dispatch) enter as explicit data:
  a ray-cast is a function from the cast origin to the hit list it
  returns, a rotated direction vector is an input, and the DOM listener
  table is an explicit list of (target, event, handler) registrations.
-/

/-! ## Constants (lines 8-13 of the source) -/

def GRAVITY : ℚ := -30

def PLAYER_HEIGHT : ℚ := 3/2

def MOVE_SPEED : ℚ := 8

def SPRINT_MULT : ℚ := 9/4

def JUMP_POWER : ℚ := 10

def DOOR_DISTANCE : ℚ := 11/5

/-! ## Vectors -/

/-- A 3-component vector (`THREE.Vector3`) over exact rationals. -/
structure Vec3 where
  x : ℚ
  y : ℚ
  z : ℚ
deriving DecidableEq, Repr

namespace Vec3

/-- `v.addScaledVector d s` (`camera.position.addScaledVector(dir, s)`). -/
def addScaled (v d : Vec3) (s : ℚ) : Vec3 :=
  ⟨v.x + s * d.x, v.y + s * d.y, v.z + s * d.z⟩

/-- Squared Euclidean distance.  The source compares
`a.distanceTo(b) < r` with `r > 0`; over the reals that comparison is
equivalent to `distSq a b < r^2`, which is the form used here so that
it stays decidable over `ℚ`. -/
def distSq (a b : Vec3) : ℚ :=
  (a.x - b.x)^2 + (a.y - b.y)^2 + (a.z - b.z)^2

end Vec3

/-! ## Player state and the ground query

`player` in the source is `{ velocity: Vector3, onGround: false }`; only
the `y` component of the velocity is ever read or written, so the state
carries it as a scalar.  The camera's position is part of the same
per-session mutable state. -/

structure PlayerState where
  pos : Vec3
  velY : ℚ
  onGround : Bool
deriving DecidableEq, Repr

/-- One entry of the list returned by
`raycaster.intersectObjects(groundMeshes, false)` for a downward ray:
its `distance` and the `y` of its `point`. -/
structure Hit where
  distance : ℚ
  pointY : ℚ
deriving DecidableEq, Repr

/-- A scene, for the purposes of the ground query, is the function the
external ray caster implements: from the cast origin (the camera
position; the direction is always straight down) to the ordered hit
list. -/
def SceneRay : Type := Vec3 → List Hit

/-- `hits.find((h) => h.distance <= PLAYER_HEIGHT + 0.35)` (line 84). -/
def findHit (hits : List Hit) : Option Hit :=
  hits.find? (fun h => h.distance ≤ PLAYER_HEIGHT + 35/100)

/-- `checkGround` (lines 81-92): cast straight down from the camera
position; on a hit within `PLAYER_HEIGHT + 0.35`, mark grounded, clamp
the vertical velocity to be non-negative
(`player.velocity.y = Math.max(0, player.velocity.y)`) and snap the
camera to `hit.point.y + PLAYER_HEIGHT`; otherwise mark airborne. -/
def checkGround (scene : SceneRay) (s : PlayerState) : PlayerState :=
  match findHit (scene s.pos) with
  | some hit =>
      { s with
        onGround := true
        velY := max 0 s.velY
        pos := { s.pos with y := hit.pointY + PLAYER_HEIGHT } }
  | none => { s with onGround := false }

/-- One iteration of the `animate` frame loop (lines 315-328), player
part.  `mobileDir` is the externally computed
`new THREE.Vector3(mobileInput.right, 0, mobileInput.forward)
.applyEuler(camera.rotation)`; it is only consulted when
`mobileMode` is true, exactly as in the source.  Note the source order:
the mobile horizontal move, then the vertical-velocity integration, then
`checkGround()`, then the vertical-position integration, then the
grounded velocity clamp. -/
def tick (scene : SceneRay) (mobileMode : Bool) (mobileDir : Vec3)
    (delta : ℚ) (s : PlayerState) : PlayerState :=
  let s0 := if mobileMode then
      { s with pos := s.pos.addScaled mobileDir (MOVE_SPEED * delta) }
    else s
  let s1 := { s0 with velY := s0.velY + GRAVITY * delta }
  let s2 := checkGround scene s1
  let s3 := { s2 with pos := { s2.pos with y := s2.pos.y + s2.velY * delta } }
  if s3.onGround then { s3 with velY := max 0 s3.velY } else s3

/-- A flat horizontal floor at height `g`: the downward ray from a
point at or above the floor reports one hit, at distance `p.y - g`
with hit point `g`.  Used as a concrete scene for witnesses and
counterexamples. -/
def flatFloor (g : ℚ) : SceneRay :=
  fun p => if g ≤ p.y then [⟨p.y - g, g⟩] else []

/-! ## Tick written in the order the spec asserts (for claim C2)

The spec claims the per-tick order is: integrate velocity, integrate
position, and only then run the ground query.  `tickSpecOrder` is
modelled from those words (NOT from the source) purely so that the
source's `tick` can be compared against it. -/

/-- Modelled from the spec's words, for comparison with `tick`:
velocity integration, then position integration, then the ground-snap
query (desktop case). -/
def tickSpecOrder (scene : SceneRay) (delta : ℚ) (s : PlayerState) :
    PlayerState :=
  let s1 := { s with velY := s.velY + GRAVITY * delta }
  let s2 := { s1 with pos := { s1.pos with y := s1.pos.y + s1.velY * delta } }
  checkGround scene s2

/-! ## Doors and the keyboard handler

A door mesh (any mesh whose name contains "door", lines 139-143) keeps
its world position, the `userData.near` / `userData.opened` flags and
its `rotation.y`.  `rotYPi` is `rotation.y` expressed as a rational
multiple of π: the source only ever subtracts `Math.PI / 2`, which here
is subtracting `1/2`. -/

structure Door where
  pos : Vec3
  near : Bool
  opened : Bool
  rotYPi : ℚ
deriving DecidableEq, Repr

/-- `checkDoors` (lines 94-100): recompute `near` for every door as
"within `DOOR_DISTANCE` of the camera and not yet opened"
(`d.position.distanceTo(camera.position) < DOOR_DISTANCE &&
!d.userData.opened`, stated here in the equivalent squared form).
NOTE: this function is defined in the source but never invoked — the
frame loop `tick` above does not call it, and nothing else does. -/
def checkDoors (camPos : Vec3) (doors : List Door) : List Door :=
  doors.map (fun d =>
    { d with near := Vec3.distSq d.pos camPos < DOOR_DISTANCE^2 ∧ ¬ d.opened })

/-- The `KeyE` branch of `downHandler` (lines 181-187): every door whose
`userData.near` flag is set gets `rotation.y -= Math.PI / 2` and
`userData.opened = true`.  The handler consults only `near`; it neither
reads `opened` nor clears `near`. -/
def interactDoors (doors : List Door) : List Door :=
  doors.map (fun d =>
    if d.near then { d with rotYPi := d.rotYPi - 1/2, opened := true } else d)

/-- The mutable per-session input/door state reachable from
`downHandler`: the held-key map `keys`, the player, and the door list. -/
structure SessionState where
  keys : String → Bool
  player : PlayerState
  doors : List Door

/-- `downHandler` (lines 177-189) for a `keydown` event with code
`code`: in mobile mode it does nothing; otherwise it records the key as
held, applies the jump impulse on `Space` while grounded, and on `KeyE`
opens every near door. -/
def downHandler (mobileMode : Bool) (code : String) (s : SessionState) :
    SessionState :=
  if mobileMode then s
  else
    let s := { s with keys := fun c => if c = code then true else s.keys c }
    let s := if code = "Space" ∧ s.player.onGround then
        { s with player := { s.player with velY := JUMP_POWER } }
      else s
    if code = "KeyE" then { s with doors := interactDoors s.doors } else s

/-! ## HUD indicator and the full frame step

The indicator group (lines 202-219) is created with the ring colour
`0x00e0ff`, the arrow colour `0xffffff`, and `indicator.visible =
false`.  The frame loop body (lines 315-328) consists of the mobile
move, the vertical physics, the ground query and the render call — it
contains no statement touching the indicator, the nav line, or any
selected-target state, so a frame maps the indicator to itself. -/

structure Indicator where
  visible : Bool
  ringColor : ℕ
  arrowColor : ℕ
deriving DecidableEq, Repr

/-- The indicator as constructed at session setup (lines 203-218). -/
def initIndicator : Indicator :=
  { visible := false, ringColor := 0x00e0ff, arrowColor := 0xffffff }

/-- The per-frame observable state: the player plus the HUD indicator.
`selected` records the currently selected destination label (React
state `selectedTarget`); it is part of the state so that properties can
quantify over it, and the frame step below leaves it alone because the
`animate` body never reads it. -/
structure FrameState where
  player : PlayerState
  indicator : Indicator
  selected : Option String
deriving Repr

/-- One full iteration of `animate` on the observable state: the player
physics of `tick`, and nothing else — in particular no update of the
indicator and no read of the selection (the source loop has no such
code). -/
def frame (scene : SceneRay) (mobileMode : Bool) (mobileDir : Vec3)
    (delta : ℚ) (f : FrameState) : FrameState :=
  { f with player := tick scene mobileMode mobileDir delta f.player }

/-- `n` consecutive frames with per-frame elapsed times drawn from
`deltas`. -/
def frames (scene : SceneRay) (mobileMode : Bool) (mobileDir : Vec3)
    (deltas : List ℚ) (f : FrameState) : FrameState :=
  deltas.foldl (fun st d => frame scene mobileMode mobileDir d st) f

/-! ## Model loading: bounding boxes, spawn, labels (lines 115-173)

The loaded glTF sub-tree is abstracted as the list of its meshes in
traversal order: for the spawn computation each mesh contributes its
axis-aligned bounding box (`new THREE.Box3().setFromObject(child)`),
and for the label registry each mesh contributes its `name`. -/

structure Box3 where
  bmin : Vec3
  bmax : Vec3
deriving DecidableEq, Repr

/-- One step of the `groundLevel` tracking (lines 130, 136-137):
`if (box.min.y < groundLevel) groundLevel = box.min.y`, with the
initial `Infinity` modelled as `none`. -/
def groundStep (acc : Option ℚ) (b : Box3) : Option ℚ :=
  match acc with
  | none => some b.bmin.y
  | some g => some (if b.bmin.y < g then b.bmin.y else g)

/-- `groundLevel`: starts at `Infinity` (`none` here) and is lowered to
`box.min.y` whenever `box.min.y < groundLevel`, so it ends as the
minimum of the per-mesh `box.min.y`. -/
def groundLevelOf (boxes : List Box3) : Option ℚ :=
  boxes.foldl groundStep none

/-- One step of the bounding-box union: expanding a box by another
box, with the empty initial box modelled as `none`. -/
def unionStep (acc : Option Box3) (b : Box3) : Option Box3 :=
  match acc with
  | none => some b
  | some u =>
      some ⟨⟨min u.bmin.x b.bmin.x, min u.bmin.y b.bmin.y,
             min u.bmin.z b.bmin.z⟩,
            ⟨max u.bmax.x b.bmax.x, max u.bmax.y b.bmax.y,
             max u.bmax.z b.bmax.z⟩⟩

/-- `new THREE.Box3().setFromObject(gltf.scene)` (line 160): the union
of the meshes' boxes. -/
def unionBoxOf (boxes : List Box3) : Option Box3 :=
  boxes.foldl unionStep none

/-- `box.getCenter` of a `Box3`. -/
def boxCenter (b : Box3) : Vec3 :=
  ⟨(b.bmin.x + b.bmax.x) / 2, (b.bmin.y + b.bmax.y) / 2,
   (b.bmin.z + b.bmax.z) / 2⟩

/-- `box.getSize` of a `Box3`. -/
def boxSize (b : Box3) : Vec3 :=
  ⟨b.bmax.x - b.bmin.x, b.bmax.y - b.bmin.y, b.bmax.z - b.bmin.z⟩

/-- The spawn position set on load success (line 162):
`camera.position.set(center.x, groundLevel + PLAYER_HEIGHT,
center.z + box.getSize(...).z * 0.3)`.  `none` when the model has no
meshes (in the source that case would read `Infinity`). -/
def spawnOf (boxes : List Box3) : Option Vec3 :=
  match unionBoxOf boxes, groundLevelOf boxes with
  | some u, some g =>
      some ⟨(boxCenter u).x, g + PLAYER_HEIGHT,
            (boxCenter u).z + (boxSize u).z * (3/10)⟩
  | _, _ => none

/-- Modelled from the spec's words, for comparison with `spawnOf`: the
claim says the spawn is exactly (bounding-box horizontal centre x,
lowest ground point + eye height, bounding-box horizontal centre z). -/
def spawnOfClaim (boxes : List Box3) : Option Vec3 :=
  match unionBoxOf boxes, groundLevelOf boxes with
  | some u, some g =>
      some ⟨(boxCenter u).x, g + PLAYER_HEIGHT, (boxCenter u).z⟩
  | _, _ => none

/-! ## Mesh-name formatting and the target registry -/

/-- A whitespace character as matched by the regex `\s` on the
characters that can occur in mesh names. -/
def isWs (c : Char) : Bool :=
  c = ' ' ∨ c = '\t' ∨ c = '\n' ∨ c = '\r'

/-- `\s+` runs collapse to a single space (`.replace(/\s+/g, " ")`):
within a maximal whitespace run every character but the last is
dropped and the last becomes a single `' '`. -/
def collapseWs : List Char → List Char
  | [] => []
  | [c] => if isWs c then [' '] else [c]
  | c :: c' :: cs =>
      if isWs c then
        if isWs c' then collapseWs (c' :: cs)
        else ' ' :: collapseWs (c' :: cs)
      else c :: collapseWs (c' :: cs)

/-- `.trim()`: drop leading and trailing whitespace. -/
def trimWs (cs : List Char) : List Char :=
  ((cs.dropWhile isWs).reverse.dropWhile isWs).reverse

/-- `formatName` (lines 25-26):
`name.replace(/[_\-]/g, " ").replace(/\d+/g, "").replace(/\s+/g, " ")
.trim()`.  Replacing every maximal digit run by the empty string is the
same as deleting every digit character, which is the form used here. -/
def formatName (name : String) : String :=
  ⟨trimWs (collapseWs (((name.data.map
      (fun c => if c = '_' ∨ c = '-' then ' ' else c)).filter
      (fun c => ¬ c.isDigit))))⟩

/-- The fixed manual navigation list `NAV_TARGETS` (lines 16-22),
labels only. -/
def NAV_TARGET_LABELS : List String :=
  ["Gate", "Parking Area", "Cafeteria", "Security Office",
   "Emergency Exit"]

/-- The label-collection pass of the load traversal (lines 127-152):
each mesh with `name.length > 2` contributes `formatName name`, with a
label skipped when an earlier mesh already produced it (the
`addedNames` set). -/
def detectedLabels (names : List String) : List String :=
  (names.foldl
    (fun acc n =>
      if 2 < n.length then
        let label := formatName n
        if label ∈ acc then acc else acc ++ [label]
      else acc)
    [])

/-- The registry handed to `setNavTargets` (lines 154-158): discovered
mesh labels first, then the fixed points. -/
def registryOf (names : List String) : List String :=
  detectedLabels names ++ NAV_TARGET_LABELS

/-! ## Load completion and the loading flag (lines 103-108, 115-173)

`loading` starts `true` (line 32).  On success the `onLoad` callback
runs and ends in `setLoading(false)`.  On failure both registered error
paths run — `manager.onError` (lines 104-108) and the `load` error
callback (lines 168-172) — and each sets the error message and then
clears the flag; three.js invokes both for a failed fetch.  No path
issues another load request. -/

inductive UiAction
  | setLoadingFalse
  | setErrorMsg
  | startLoad
deriving DecidableEq, Repr

inductive LoadOutcome
  | success
  | failure
deriving DecidableEq, Repr

/-- The UI actions the registered callbacks perform, in order, for each
load outcome. -/
def callbacksOf : LoadOutcome → List UiAction
  | .success => [.setLoadingFalse]
  | .failure => [.setErrorMsg, .setLoadingFalse,
                 .setErrorMsg, .setLoadingFalse]

/-- The UI state owned by the component: the `loading` flag and the
`error` message. -/
structure UiState where
  loading : Bool
  error : String
deriving DecidableEq, Repr

def applyUi (msg : String) : UiState → UiAction → UiState
  | s, .setLoadingFalse => { s with loading := false }
  | s, .setErrorMsg => { s with error := msg }
  | s, .startLoad => s

/-- Run a list of UI actions from a state. -/
def runUi (msg : String) (s : UiState) (acts : List UiAction) : UiState :=
  acts.foldl (applyUi msg) s

/-- How many actions of a trace flip the `loading` flag from `true` to
`false` (a `setLoadingFalse` arriving while the flag is already `false`
flips nothing). -/
def loadingFlips (msg : String) (s : UiState) : List UiAction → ℕ
  | [] => 0
  | a :: rest =>
      (if s.loading ∧ ¬ (applyUi msg s a).loading then 1 else 0) +
        loadingFlips msg (applyUi msg s a) rest

/-- The error message both failure callbacks set (lines 106, 170). -/
def LOAD_ERROR_MSG : String := "Model failed to load. Check network or file path."

/-- The component's initial UI state (lines 32-33). -/
def initUiState : UiState := { loading := true, error := "" }

/-! ## Event-listener registrations and teardown (lines 191-193,
265-311, 336, 338-345)

Every `addEventListener` issued during setup, as (target, event,
handler tag), in source order; and every `removeEventListener` issued
by the effect's cleanup function.  Likewise the overlay elements the
setup appends to the mount and the ones the cleanup removes. -/

structure Listener where
  target : String
  event : String
  tag : String
deriving DecidableEq, Repr

/-- All listeners registered during setup. -/
def registeredListeners : List Listener :=
  [⟨"document", "keydown", "downHandler"⟩,
   ⟨"document", "keyup", "upHandler"⟩,
   ⟨"rendererDom", "click", "lockOnClick"⟩,
   ⟨"joystickOuter", "touchstart", "joystickStart"⟩,
   ⟨"window", "touchmove", "joystickTouchMove"⟩,
   ⟨"window", "touchend", "joystickTouchEnd"⟩,
   ⟨"window", "touchstart", "rotateStart"⟩,
   ⟨"window", "touchmove", "rotateMove"⟩,
   ⟨"window", "touchend", "rotateEnd"⟩,
   ⟨"window", "resize", "onResize"⟩]

/-- The listeners the cleanup function removes (lines 339-341). -/
def removedListeners : List Listener :=
  [⟨"window", "resize", "onResize"⟩,
   ⟨"document", "keydown", "downHandler"⟩,
   ⟨"document", "keyup", "upHandler"⟩]

/-- Registered listeners that teardown does not deregister. -/
def leakedListeners : List Listener :=
  registeredListeners.filter (fun l => ¬ l ∈ removedListeners)

/-- Overlay elements appended to the mount during setup: the rendering
surface (line 63) and the joystick outer element, which holds the inner
one (lines 245-246). -/
def appendedToMount : List String := ["rendererDom", "joystickOuter"]

/-- Elements removed from the mount by the cleanup (line 342). -/
def removedFromMount : List String := ["rendererDom"]

/-! ## DOM event dispatch and the mobile Jump button (line 367)

`dispatchEvent` runs, in registration order, the handlers whose target
and event name match the dispatched event; the handlers' effects on the
player are abstract (they are parameters), since the property of
interest is only which of them fire. -/

def dispatchEvent
    (table : List (String × String × (PlayerState → PlayerState)))
    (tgt ev : String) (s : PlayerState) : PlayerState :=
  ((table.filter (fun e => e.1 = tgt ∧ e.2.1 = ev)).map
    (fun e => e.2.2)).foldl (fun st h => h st) s

/-- The session's handler table: the ten registrations of
`registeredListeners`, with each handler's effect on the player state
abstract. -/
def sessionHandlerTable
    (h1 h2 h3 h4 h5 h6 h7 h8 h9 h10 : PlayerState → PlayerState) :
    List (String × String × (PlayerState → PlayerState)) :=
  [("document", "keydown", h1),
   ("document", "keyup", h2),
   ("rendererDom", "click", h3),
   ("joystickOuter", "touchstart", h4),
   ("window", "touchmove", h5),
   ("window", "touchend", h6),
   ("window", "touchstart", h7),
   ("window", "touchmove", h8),
   ("window", "touchend", h9),
   ("window", "resize", h10)]

/-- The mobile Jump button's click handler (line 367):
`window.dispatchEvent(new Event('mobileJump'))`. -/
def jumpButtonClick
    (table : List (String × String × (PlayerState → PlayerState)))
    (s : PlayerState) : PlayerState :=
  dispatchEvent table "window" "mobileJump" s

/-! # Theorems -/

/-- Helper (shared by several claims): closed form of one desktop-mode
tick.  The ground query is evaluated at the pre-tick position; a hit
clamps the height to `hit.pointY + PLAYER_HEIGHT` before the vertical
position integration and clamps the velocity to be non-negative; a miss
leaves the player in free fall. -/
theorem tick_desktop_eval (scene : SceneRay) (dir : Vec3) (delta : ℚ)
    (s : PlayerState) :
    tick scene false dir delta s =
      match findHit (scene s.pos) with
      | some hit =>
          { pos := ⟨s.pos.x,
              hit.pointY + PLAYER_HEIGHT + max 0 (s.velY + GRAVITY * delta) * delta,
              s.pos.z⟩,
            velY := max 0 (s.velY + GRAVITY * delta),
            onGround := true }
      | none =>
          { pos := ⟨s.pos.x, s.pos.y + (s.velY + GRAVITY * delta) * delta,
              s.pos.z⟩,
            velY := s.velY + GRAVITY * delta,
            onGround := false } := by
  simp only [tick, checkGround]
  cases h : findHit (scene s.pos) <;>
    simp [h, ← max_assoc, max_self]

/-- C1: the claim says that in desktop mode the held-key map drives the
forward/right axes so that a held movement key changes the camera's
horizontal position each tick.  The frame loop refutes this: with
`mobileMode = false` a tick never changes `pos.x` or `pos.z`, whatever
the scene, the elapsed time or the player state — the loop body never
reads the key map, and its only horizontal move is the mobile-mode
branch. -/
theorem desktop_tick_never_moves_horizontally (scene : SceneRay)
    (dir : Vec3) (delta : ℚ) (s : PlayerState) :
    (tick scene false dir delta s).pos.x = s.pos.x ∧
    (tick scene false dir delta s).pos.z = s.pos.z := by
  simp only [tick]
  cases h : findHit (scene s.pos) <;>
    simp [checkGround, h]

/-- C2 counterexample: the claim says the ground query runs only after
both the velocity and the position integrations.  Running the source's
tick and the claimed order from the same state over a flat floor at
height 0 gives different results: starting at height 19/10 with zero
velocity and `delta = 1/10`, the source's tick leaves the player
airborne at height 8/5, while the claimed order would ground it at
height 3/2. -/
theorem tick_order_counterexample :
    tick (flatFloor 0) false ⟨0, 0, 0⟩ (1/10) ⟨⟨0, 19/10, 0⟩, 0, false⟩ ≠
      tickSpecOrder (flatFloor 0) (1/10) ⟨⟨0, 19/10, 0⟩, 0, false⟩ := by
  have h1 : tick (flatFloor 0) false ⟨0, 0, 0⟩ (1/10)
      ⟨⟨0, 19/10, 0⟩, 0, false⟩ = ⟨⟨0, 8/5, 0⟩, -3, false⟩ := by
    norm_num [tick, checkGround, findHit, flatFloor, GRAVITY, PLAYER_HEIGHT]
  have h2 : tickSpecOrder (flatFloor 0) (1/10)
      ⟨⟨0, 19/10, 0⟩, 0, false⟩ = ⟨⟨0, 3/2, 0⟩, 0, true⟩ := by
    norm_num [tickSpecOrder, checkGround, findHit, flatFloor, GRAVITY,
      PLAYER_HEIGHT]
  rw [h1, h2]
  simp

/-- C2 amended: within a tick the ground query runs after the velocity
integration but before the vertical position integration, so in desktop
mode it sees the pre-tick position: the tick's grounded outcome is
exactly whether the ray cast from the pre-tick position finds a hit
within tolerance. -/
theorem tick_ground_query_sees_pretick_position (scene : SceneRay)
    (dir : Vec3) (delta : ℚ) (s : PlayerState) :
    (tick scene false dir delta s).onGround =
      (findHit (scene s.pos)).isSome := by
  simp only [tick]
  cases h : findHit (scene s.pos) <;>
    simp [checkGround, h]

/-- C6 counterexample: the claim says that a ground hit zeroes the
vertical velocity, and that being grounded at the end of a tick with no
jump impulse applied during that tick implies zero vertical velocity.
Starting grounded at height 3/2 over a flat floor with upward velocity
10 (a jump impulse applied by the key handler before this tick — the
tick itself applies none), one tick with `delta = 1/10` ends grounded
with vertical velocity 7 ≠ 0: the ground hit only clamps the velocity
to be non-negative. -/
theorem grounded_nonzero_velocity_counterexample :
    ((tick (flatFloor 0) false ⟨0, 0, 0⟩ (1/10)
        ⟨⟨0, 3/2, 0⟩, 10, true⟩).onGround = true) ∧
    ((tick (flatFloor 0) false ⟨0, 0, 0⟩ (1/10)
        ⟨⟨0, 3/2, 0⟩, 10, true⟩).velY = 7) ∧ (7 : ℚ) ≠ 0 := by
  have h : tick (flatFloor 0) false ⟨0, 0, 0⟩ (1/10)
      ⟨⟨0, 3/2, 0⟩, 10, true⟩ = ⟨⟨0, 11/5, 0⟩, 7, true⟩ := by
    norm_num [tick, checkGround, findHit, flatFloor, GRAVITY, PLAYER_HEIGHT]
  rw [h]
  norm_num

/-- C6 amended: a ground hit within tolerance clamps the vertical
position to hit height + player eye height (the later position
integration then adds nothing) and clamps the vertical velocity to be
non-negative, zeroing it only when it was not upward; so whenever the
tick ends grounded and the gravity-integrated velocity
`velY + GRAVITY·delta` is not upward (no jump impulse carried into the
tick), the end-of-tick vertical velocity is zero and the end-of-tick
height is the hit height plus the eye height. -/
theorem tick_ground_hit_clamps (scene : SceneRay) (dir : Vec3)
    (delta : ℚ) (s : PlayerState)
    (hv : s.velY + GRAVITY * delta ≤ 0)
    (hg : (tick scene false dir delta s).onGround = true) :
    (tick scene false dir delta s).velY = 0 ∧
    ∀ hit, findHit (scene s.pos) = some hit →
      (tick scene false dir delta s).pos.y = hit.pointY + PLAYER_HEIGHT := by
  rw [tick_desktop_eval] at hg ⊢
  have hmax : max 0 (s.velY + GRAVITY * delta) = 0 := max_eq_left hv
  cases h : findHit (scene s.pos) with
  | none =>
      rw [h] at hg
      exact Bool.noConfusion hg
  | some hit =>
      refine ⟨by simp [hmax], ?_⟩
      intro hit' h'
      cases h'
      simp [hmax]

/-- Witness for `tick_ground_hit_clamps`: grounded rest state at height
3/2 over the flat floor at 0, `delta = 1/10`. -/
theorem tick_ground_hit_clamps_witness :
    (tick (flatFloor 0) false ⟨0, 0, 0⟩ (1/10)
      ⟨⟨0, 3/2, 0⟩, 0, true⟩).velY = 0 :=
  (tick_ground_hit_clamps (flatFloor 0) ⟨0, 0, 0⟩ (1/10)
    ⟨⟨0, 3/2, 0⟩, 0, true⟩
    (by norm_num [GRAVITY])
    (by norm_num [tick, checkGround, findHit, flatFloor, GRAVITY,
      PLAYER_HEIGHT])).1

/-- C3: the claim says that whenever a destination is selected the HUD
indicator is visible with a colour varying over at least three distance
bands.  The frame loop refutes this: the loop body contains no code
touching the indicator, so after any number of frames — whatever the
selected target, the scene, the input mode or the player's distance to
anything — the indicator is still exactly as built at setup: invisible,
with the one fixed ring colour `0x00e0ff`.  In particular no near-band
colour constant exists, and at distance 5/2 the indicator is not
shown. -/
theorem hud_indicator_never_updated (scene : SceneRay) (m : Bool)
    (dir : Vec3) (deltas : List ℚ) (sel : Option String)
    (p : PlayerState) :
    (frames scene m dir deltas ⟨p, initIndicator, sel⟩).indicator =
        initIndicator ∧
    initIndicator.visible = false ∧
    initIndicator.ringColor = 0x00e0ff := by
  refine ⟨?_, rfl, rfl⟩
  suffices h : ∀ f : FrameState,
      (frames scene m dir deltas f).indicator = f.indicator from h _
  intro f
  induction deltas generalizing f with
  | nil => rfl
  | cons d ds ih => simpa [frames, frame] using ih _

/-- C4: the claim says a second interact on a door that is near and
already opened does not rotate it again.  The `KeyE` handler refutes
this: it checks only the `near` flag, which it never clears (and the
`checkDoors` recomputation is never invoked by the loop).  Starting
from a near, unopened door with rotation 0, the first `KeyE` leaves
rotation −π/2 (coefficient −1/2) with `near` still set, and the second
`KeyE` — with no state change in between — rotates again, to −π
(coefficient −1). -/
theorem door_interact_not_idempotent :
    ((downHandler false "KeyE" (downHandler false "KeyE"
        { keys := fun _ => false,
          player := ⟨⟨0, 3/2, 0⟩, 0, true⟩,
          doors := [⟨⟨1, 0, 0⟩, true, false, 0⟩] })).doors.map
        Door.rotYPi = [-1]) ∧
    ((downHandler false "KeyE"
        { keys := fun _ => false,
          player := ⟨⟨0, 3/2, 0⟩, 0, true⟩,
          doors := [⟨⟨1, 0, 0⟩, true, false, 0⟩] }).doors.map
        Door.rotYPi = [-(1/2)]) ∧
    (-1 : ℚ) ≠ -(1/2) := by
  refine ⟨?_, ?_, by norm_num⟩ <;>
    simp [downHandler, interactDoors] <;> norm_num

/-- Helper for C5: the running `groundLevel` minimum agrees with the
`min.y` of the running bounding-box union, so the spawn height can be
read off the overall box. -/
theorem groundLevel_eq_union_min (boxes : List Box3) :
    groundLevelOf boxes =
      (unionBoxOf boxes).map (fun u => u.bmin.y) := by
  suffices h : ∀ acc : Option Box3,
      boxes.foldl groundStep (acc.map (fun u => u.bmin.y)) =
        (boxes.foldl unionStep acc).map (fun u => u.bmin.y) by
    simpa [groundLevelOf, unionBoxOf] using h none
  induction boxes with
  | nil => intro acc; rfl
  | cons b bs ih =>
      intro acc
      have hstep : groundStep (acc.map (fun u => u.bmin.y)) b =
          (unionStep acc b).map (fun u => u.bmin.y) := by
        cases acc with
        | none => rfl
        | some u =>
            show some (if b.bmin.y < u.bmin.y then b.bmin.y else u.bmin.y) =
              some (min u.bmin.y b.bmin.y)
            rcases lt_or_ge b.bmin.y u.bmin.y with hlt | hge
            · rw [if_pos hlt, min_eq_right hlt.le]
            · rw [if_neg (not_lt_of_ge hge), min_eq_left hge]
      simpa [hstep] using ih (unionStep acc b)

/-- C5 counterexample: the claim says the spawn is exactly
(centre x, lowest ground + eye height, centre z).  For a model that is
one mesh with bounding box min (0,0,0), max (4,2,10), the source's
spawn is (2, 3/2, 8) — the z coordinate is the centre 5 plus 0.3 times
the box depth 10 — while the claimed position has z = 5. -/
theorem spawn_position_counterexample :
    spawnOf [⟨⟨0, 0, 0⟩, ⟨4, 2, 10⟩⟩] = some ⟨2, 3/2, 8⟩ ∧
    spawnOfClaim [⟨⟨0, 0, 0⟩, ⟨4, 2, 10⟩⟩] = some ⟨2, 3/2, 5⟩ ∧
    (⟨2, 3/2, 8⟩ : Vec3) ≠ ⟨2, 3/2, 5⟩ := by
  refine ⟨?_, ?_, ?_⟩ <;>
    norm_num [spawnOf, spawnOfClaim, unionBoxOf, groundLevelOf,
      unionStep, groundStep, boxCenter, boxSize, PLAYER_HEIGHT]

/-- C5 amended: when the load succeeds on a model with at least one
mesh, the camera spawns at (bounding-box centre x, lowest ground point
+ player eye height, bounding-box centre z + 0.3 × bounding-box
depth); the lowest ground point equals the overall box's `min.y`. -/
theorem spawn_position_formula (boxes : List Box3) (u : Box3)
    (h : unionBoxOf boxes = some u) :
    spawnOf boxes =
      some ⟨(boxCenter u).x, u.bmin.y + PLAYER_HEIGHT,
            (boxCenter u).z + (boxSize u).z * (3/10)⟩ := by
  have hg : groundLevelOf boxes = some u.bmin.y := by
    rw [groundLevel_eq_union_min, h]
    rfl
  simp [spawnOf, h, hg]

/-- Witness for `spawn_position_formula` at the one-mesh model with
box min (0,0,0), max (4,2,10). -/
theorem spawn_position_formula_witness :
    spawnOf [⟨⟨0, 0, 0⟩, ⟨4, 2, 10⟩⟩] =
      some ⟨(boxCenter ⟨⟨0, 0, 0⟩, ⟨4, 2, 10⟩⟩).x,
            (⟨⟨0, 0, 0⟩, ⟨4, 2, 10⟩⟩ : Box3).bmin.y + PLAYER_HEIGHT,
            (boxCenter ⟨⟨0, 0, 0⟩, ⟨4, 2, 10⟩⟩).z +
              (boxSize ⟨⟨0, 0, 0⟩, ⟨4, 2, 10⟩⟩).z * (3/10)⟩ :=
  spawn_position_formula [⟨⟨0, 0, 0⟩, ⟨4, 2, 10⟩⟩]
    ⟨⟨0, 0, 0⟩, ⟨4, 2, 10⟩⟩ (by rfl)

/-- C7: for every load outcome the `loading` flag ends `false`, its
value flips from `true` to `false` exactly once over the callback trace
(on failure `setLoading(false)` is invoked a second time, but the flag
is already `false` and does not flip again), the error message is the
user-visible load-failure text exactly on failure, and no callback
starts another load (no automatic retry). -/
theorem loading_flag_settles_once (o : LoadOutcome) :
    (runUi LOAD_ERROR_MSG initUiState (callbacksOf o)).loading = false ∧
    loadingFlips LOAD_ERROR_MSG initUiState (callbacksOf o) = 1 ∧
    (runUi LOAD_ERROR_MSG initUiState (callbacksOf o)).error =
      (if o = LoadOutcome.failure then LOAD_ERROR_MSG else "") ∧
    UiAction.startLoad ∉ callbacksOf o := by
  cases o <;>
    simp [runUi, applyUi, callbacksOf, loadingFlips, initUiState]

/-- C8: the claim says teardown removes every registered input listener
and the joystick overlay elements.  The cleanup refutes this: of the
ten registrations only the resize and two keyboard listeners are
removed — the seven others (the canvas click, the joystick touchstart
and all five window touch listeners) stay registered — and the joystick
outer element, appended to the mount at setup, is never removed from
it. -/
theorem teardown_leaks_listeners_and_joystick :
    leakedListeners =
      [⟨"rendererDom", "click", "lockOnClick"⟩,
       ⟨"joystickOuter", "touchstart", "joystickStart"⟩,
       ⟨"window", "touchmove", "joystickTouchMove"⟩,
       ⟨"window", "touchend", "joystickTouchEnd"⟩,
       ⟨"window", "touchstart", "rotateStart"⟩,
       ⟨"window", "touchmove", "rotateMove"⟩,
       ⟨"window", "touchend", "rotateEnd"⟩] ∧
    "joystickOuter" ∈ appendedToMount ∧
    "joystickOuter" ∉ removedFromMount := by
  refine ⟨?_, by simp [appendedToMount], by simp [removedFromMount]⟩
  simp [leakedListeners, registeredListeners, removedListeners]

/-- C9: `formatName` sends both "Door_01" and "Door_02" to the label
"Door", and after the load traversal the registry (discovered labels
followed by the fixed navigation points) holds exactly one entry
labelled "Door". -/
theorem door_labels_deduplicated :
    formatName "Door_01" = "Door" ∧
    formatName "Door_02" = "Door" ∧
    (registryOf ["Door_01", "Door_02"]).count "Door" = 1 := by
  refine ⟨by decide, by decide, by decide⟩

/-- C10: the mobile Jump button dispatches a `mobileJump` event on
`window`, but none of the session's ten listener registrations is for
that event, so the dispatch runs no handler at all: whatever the ten
handlers would do, the player state is returned unchanged. -/
theorem mobile_jump_has_no_effect
    (h1 h2 h3 h4 h5 h6 h7 h8 h9 h10 : PlayerState → PlayerState)
    (s : PlayerState) :
    jumpButtonClick (sessionHandlerTable h1 h2 h3 h4 h5 h6 h7 h8 h9 h10) s
        = s ∧
    ((sessionHandlerTable h1 h2 h3 h4 h5 h6 h7 h8 h9 h10).filter
      (fun e => e.1 = "window" ∧ e.2.1 = "mobileJump")).length = 0 := by
  constructor
  · rfl
  · rfl
